import Mathlib

/-!  Verification of the FreeBSD platform layer of a cross-platform
file-transfer tool (package `common`): the Windows-FILETIME / Unix-nanosecond
epoch conversions, the stat-to-ByHandleFileInformation mapping, the
sized-file creation control flow, and the credential-cache locking
discipline.

Modelling conventions:
  * Go `int64` values are `Int` together with an explicit reduction
    `toInt64` into the signed 64-bit range wherever Go arithmetic wraps.
  * Go `uint32`/`uint64` values are `Nat`; a conversion `uint32(x)` is
    `% 2 ^ 32`, `uint64` of a signed value is `toUInt64`.
  * Go `x / y` on int64 truncates toward zero, which is `Int.tdiv`;
    Go `x >> 32` on int64 is an arithmetic shift, which is `Int.fdiv`
    by `2 ^ 32`.
  * External effects (stat, mkdir, open, truncate, close) enter as
    explicit outcome parameters; the file-creation helper also returns
    the trace of collaborator calls it performed.
  * The mutex protocol of the credential cache is modelled as a step
    relation on a lock state, with one transition per code point of the
    Go methods (Lock, backend body, Unlock, and a backend fault that
    skips the Unlock).  -/

namespace AzCopy

/-- Reduction of an integer into the signed 64-bit range by
twos-complement wrap, modelling Go int64 overflow semantics. -/
def toInt64 (n : Int) : Int := (n + 2 ^ 63) % 2 ^ 64 - 2 ^ 63

/-- Conversion of a Go int64 value to uint64, modelling `uint64(x)`. -/
def toUInt64 (n : Int) : Nat := (n % 2 ^ 64).toNat

/-- Go: `TICKS_FROM_WINDOWS_EPOCH_TO_UNIX_EPOCH = 116444736000000000`,
the number of 100-nanosecond intervals from the Windows epoch
(January 1, 1601) to the Unix epoch (January 1, 1970). -/
def TICKS_FROM_WINDOWS_EPOCH_TO_UNIX_EPOCH : Int := 116444736000000000

/-- Go: `type Filetime struct { LowDateTime uint32; HighDateTime uint32 }`. -/
structure Filetime where
  LowDateTime : Nat
  HighDateTime : Nat
deriving DecidableEq, Inhabited

/-- Go: `func (ft *Filetime) Nanoseconds() int64`.
Line by line:
  `nsec := int64(ft.HighDateTime)<<32 + int64(ft.LowDateTime)` is the two
  inner `toInt64` applications (the shift and the addition each wrap);
  `nsec -= TICKS_FROM_WINDOWS_EPOCH_TO_UNIX_EPOCH` is the next `toInt64`;
  `return nsec * 100` is the outermost `toInt64`. -/
def Filetime.Nanoseconds (ft : Filetime) : Int :=
  toInt64 ((toInt64 (toInt64 ((ft.HighDateTime : Int) * 2 ^ 32) + (ft.LowDateTime : Int)) -
      TICKS_FROM_WINDOWS_EPOCH_TO_UNIX_EPOCH) * 100)

/-- Go: `func NsecToFiletime(nsec int64) Filetime`.
`nsec /= 100` is `Int.tdiv nsec 100` (Go division truncates toward zero;
no wrap is possible when dividing by 100);
`nsec += TICKS_FROM_WINDOWS_EPOCH_TO_UNIX_EPOCH` wraps, hence `toInt64`;
`uint32(nsec & 0xFFFFFFFF)` is `% 2 ^ 32` (low 32 bits, non-negative);
`uint32(nsec >> 32)` is the arithmetic shift `Int.fdiv` by `2 ^ 32`
followed by the uint32 truncation `% 2 ^ 32`. -/
def NsecToFiletime (nsec : Int) : Filetime :=
  { LowDateTime :=
      ((toInt64 (Int.tdiv nsec 100 + TICKS_FROM_WINDOWS_EPOCH_TO_UNIX_EPOCH)) % 2 ^ 32).toNat
    HighDateTime :=
      (((toInt64 (Int.tdiv nsec 100 + TICKS_FROM_WINDOWS_EPOCH_TO_UNIX_EPOCH)).fdiv (2 ^ 32)) %
          2 ^ 32).toNat }

/-- Go: `func WindowsTicksToUnixNano(ticks int64) int64`. -/
def WindowsTicksToUnixNano (ticks : Int) : Int :=
  toInt64 (toInt64 (ticks - TICKS_FROM_WINDOWS_EPOCH_TO_UNIX_EPOCH) * 100)

/-- Go: `func UnixNanoToWindowsTicks(nsec int64) int64`. -/
def UnixNanoToWindowsTicks (nsec : Int) : Int :=
  toInt64 (Int.tdiv nsec 100 + TICKS_FROM_WINDOWS_EPOCH_TO_UNIX_EPOCH)

/-- Go: `unix.Timespec` with `Sec`, `Nsec` int64 fields. -/
structure Timespec where
  Sec : Int
  Nsec : Int
deriving DecidableEq

/-- Go: `func TimespecToFiletime(ts unix.Timespec) Filetime`, which is
`NsecToFiletime(int64(ts.Sec)*1_000_000_000 + int64(ts.Nsec))` with
wrapping int64 multiplication and addition. -/
def TimespecToFiletime (ts : Timespec) : Filetime :=
  NsecToFiletime (toInt64 (toInt64 (ts.Sec * 1000000000) + ts.Nsec))

/-- The fields of `unix.Stat_t` that `GetFileInformation` reads.
`Mode` is uint16, `Nlink` and `Ino` are uint64, `Size` is int64, the
timestamps are int64 pairs. -/
structure Stat_t where
  Mode : Nat
  Atim : Timespec
  Mtim : Timespec
  Size : Int
  Nlink : Nat
  Ino : Nat
deriving DecidableEq

/-- Go: `windows.ByHandleFileInformation` as redeclared in the source. -/
structure ByHandleFileInformation where
  FileAttributes : Nat
  CreationTime : Filetime
  LastAccessTime : Filetime
  LastWriteTime : Filetime
  VolumeSerialNumber : Nat
  FileSizeHigh : Nat
  FileSizeLow : Nat
  NumberOfLinks : Nat
  FileIndexHigh : Nat
  FileIndexLow : Nat
deriving DecidableEq, Inhabited

/-- FreeBSD `syscall.S_IFMT`, the file-type mask of the stat mode. -/
def S_IFMT : Nat := 0xF000

/-- FreeBSD `syscall.S_IFDIR`, the directory file type. -/
def S_IFDIR : Nat := 0x4000

/-- Go: `func GetFileInformation(path string, isNFSCopy bool)
(ByHandleFileInformation, error)`.  The outcome of the one external call
`unix.Stat(path, &st)` enters as `statResult` (`Except.error` for a
failed stat, carrying its message).  The body:
  stat failure returns `fmt.Errorf("stat(%s) failed: %v", path, err)`;
  `if (st.Mode & syscall.S_IFMT) == syscall.S_IFDIR` sets attribute
  `0x10` on the zero-initialised record, else assigns `0x80`;
  creation and last-write time both come from `st.Mtim`, access time
  from `st.Atim`; the volume serial is 0; `size := uint64(st.Size)` is
  split as `uint32(size >> 32)` and `uint32(size & 0xFFFFFFFF)`;
  the link count is `uint32(st.Nlink)`; `ino := uint64(st.Ino)` is split
  the same way as the size.  `isNFSCopy` is never read. -/
def GetFileInformation (path : String) (isNFSCopy : Bool)
    (statResult : Except String Stat_t) : Except String ByHandleFileInformation :=
  match statResult with
  | Except.error e => Except.error ("stat(" ++ path ++ ") failed: " ++ e)
  | Except.ok st =>
      Except.ok
        { FileAttributes := if st.Mode &&& S_IFMT = S_IFDIR then 0x10 else 0x80
          CreationTime := TimespecToFiletime { Sec := st.Mtim.Sec, Nsec := st.Mtim.Nsec }
          LastAccessTime := TimespecToFiletime { Sec := st.Atim.Sec, Nsec := st.Atim.Nsec }
          LastWriteTime := TimespecToFiletime { Sec := st.Mtim.Sec, Nsec := st.Mtim.Nsec }
          VolumeSerialNumber := 0
          FileSizeHigh := toUInt64 st.Size / 2 ^ 32
          FileSizeLow := toUInt64 st.Size % 2 ^ 32
          NumberOfLinks := st.Nlink % 2 ^ 32
          FileIndexHigh := st.Ino / 2 ^ 32 % 2 ^ 32
          FileIndexLow := st.Ino % 2 ^ 32 }

/-- Opaque `FolderCreationTracker` collaborator handle. -/
structure FolderCreationTracker

/-- An open `*os.File` handle, identified by its descriptor. -/
structure OsFile where
  fd : Nat
deriving DecidableEq

/-- The open flags assembled by `CreateFileOfSizeWithWriteThroughOption`:
`os.O_RDWR | os.O_CREATE | os.O_TRUNC`, plus `os.O_SYNC` exactly when
`writeThrough` is set. -/
structure OpenFlags where
  rdwr : Bool
  create : Bool
  trunc : Bool
  sync : Bool
deriving DecidableEq

/-- Go: `flags := os.O_RDWR | os.O_CREATE | os.O_TRUNC;
if writeThrough { flags = flags | os.O_SYNC }`. -/
def openFlagsFor (writeThrough : Bool) : OpenFlags :=
  { rdwr := true, create := true, trunc := true, sync := writeThrough }

/-- Observable collaborator calls made by
`CreateFileOfSizeWithWriteThroughOption`, in order. -/
inductive FileEvent where
  | parentDirEnsured
  | opened (f : OsFile) (flags : OpenFlags)
  | truncateCalled (f : OsFile) (size : Int)
  | closeCalled (f : OsFile)
deriving DecidableEq

/-- Outcomes of the external collaborators of
`CreateFileOfSizeWithWriteThroughOption`: `CreateParentDirectoryIfNotExist`,
`os.OpenFile`, `(*os.File).Truncate` and `(*os.File).Close`.  `none`
means a nil error. -/
structure FsEnv (E : Type) where
  createParentDir : String → FolderCreationTracker → Option E
  openFile : String → OpenFlags → Except E OsFile
  truncate : OsFile → Int → Option E
  close : OsFile → Option E

/-- Go: `func CreateFileOfSizeWithWriteThroughOption(destinationPath string,
fileSize int64, writeThrough bool, t FolderCreationTracker,
forceIfReadOnly bool) (*os.File, error)`.  `forceIfReadOnly` is unused on
this OS.  The body:
  a `CreateParentDirectoryIfNotExist` error is returned as is, before any
  open; an `os.OpenFile` error is returned as is; `if fileSize == 0`
  the open handle is returned at once; otherwise `f.Truncate(fileSize)`
  is called and on its error the handle is closed with the close result
  discarded (`_ = f.Close()` is `closeCalled` with `env.close` never
  consulted) and the truncate error returned.  The returned trace lists
  the collaborator calls that succeeded or were issued. -/
def CreateFileOfSizeWithWriteThroughOption {E : Type} (env : FsEnv E)
    (destinationPath : String) (fileSize : Int) (writeThrough : Bool)
    (t : FolderCreationTracker) (forceIfReadOnly : Bool) :
    List FileEvent × Except E OsFile :=
  match env.createParentDir destinationPath t with
  | some err => ([], Except.error err)
  | none =>
      match env.openFile destinationPath (openFlagsFor writeThrough) with
      | Except.error err => ([FileEvent.parentDirEnsured], Except.error err)
      | Except.ok f =>
          if fileSize = 0 then
            ([FileEvent.parentDirEnsured, FileEvent.opened f (openFlagsFor writeThrough)],
              Except.ok f)
          else
            match env.truncate f fileSize with
            | some err =>
                ([FileEvent.parentDirEnsured, FileEvent.opened f (openFlagsFor writeThrough),
                    FileEvent.truncateCalled f fileSize, FileEvent.closeCalled f],
                  Except.error err)
            | none =>
                ([FileEvent.parentDirEnsured, FileEvent.opened f (openFlagsFor writeThrough),
                    FileEvent.truncateCalled f fileSize],
                  Except.ok f)

/-- Opaque `OAuthTokenInfo` payload exchanged with the backend. -/
structure OAuthTokenInfo where
  payload : String
deriving DecidableEq

/-- Go: `CredCacheOptions` (the part read by `NewCredCache`). -/
structure CredCacheOptions where
  KeyName : String

/-- Go: `type CredCache struct { keyName string; lock sync.Mutex;
isPermSet bool }`.  The mutex has no value-level content; it is modelled
separately by the `CredLockStep` relation. -/
structure CredCache where
  keyName : String
  isPermSet : Bool
deriving DecidableEq

/-- Go: `func NewCredCache(options CredCacheOptions) *CredCache`, which
sets `keyName` and leaves `isPermSet` at its zero value. -/
def NewCredCache (options : CredCacheOptions) : CredCache :=
  { keyName := options.KeyName, isPermSet := false }

/-- Go stub: `hasCachedTokenInternal` returns `false, nil`. -/
def CredCache.hasCachedTokenInternal (c : CredCache) : Bool × Option String :=
  (false, none)

/-- Go stub: `removeCachedTokenInternal` returns `nil`. -/
def CredCache.removeCachedTokenInternal (c : CredCache) : Option String :=
  none

/-- Go stub: `saveTokenInternal` returns `nil`. -/
def CredCache.saveTokenInternal (c : CredCache) (token : OAuthTokenInfo) : Option String :=
  none

/-- Go stub: `loadTokenInternal` returns `nil, nil`. -/
def CredCache.loadTokenInternal (c : CredCache) : Option OAuthTokenInfo × Option String :=
  (none, none)

/-- Go: `HasCachedToken` locks, delegates to `hasCachedTokenInternal`,
unlocks, and returns the backend result (value-level view; the lock
skeleton is `CredLockStep`). -/
def CredCache.HasCachedToken (c : CredCache) : Bool × Option String :=
  c.hasCachedTokenInternal

/-- Go: `RemoveCachedToken` locks, delegates, unlocks. -/
def CredCache.RemoveCachedToken (c : CredCache) : Option String :=
  c.removeCachedTokenInternal

/-- Go: `SaveToken` locks, delegates, unlocks. -/
def CredCache.SaveToken (c : CredCache) (token : OAuthTokenInfo) : Option String :=
  c.saveTokenInternal token

/-- Go: `LoadToken` locks, delegates, unlocks. -/
def CredCache.LoadToken (c : CredCache) : Option OAuthTokenInfo × Option String :=
  c.loadTokenInternal

/-- One public CredCache operation, for reasoning about call sequences. -/
inductive CredOp where
  | hasOp
  | removeOp
  | saveOp (token : OAuthTokenInfo)
  | loadOp

/-- The CredCache record after one public operation.  No method of the
source assigns to any field of the receiver, so each operation leaves the
record unchanged. -/
def CredCache.afterOp (c : CredCache) (op : CredOp) : CredCache :=
  match op with
  | CredOp.hasOp => c
  | CredOp.removeOp => c
  | CredOp.saveOp _ => c
  | CredOp.loadOp => c

/-- The CredCache record after a sequence of public operations. -/
def CredCache.afterOps (c : CredCache) (ops : List CredOp) : CredCache :=
  ops.foldl CredCache.afterOp c

/-- Phases of one goroutine executing a public CredCache operation:
before `c.lock.Lock()`; inside the backend call while holding the lock;
returned after `c.lock.Unlock()`; or stopped by a panic inside the
backend call, in which case the Go method never reaches its
`c.lock.Unlock()` statement (there is no defer). -/
inductive ThreadPhase where
  | beforeLock
  | inBackend
  | returned
  | panicked
deriving DecidableEq

/-- The mutex of one CredCache instance together with the phase of each
of `n` goroutines, each performing one public operation. -/
structure CredLockState (n : Nat) where
  owner : Option (Fin n)
  phase : Fin n → ThreadPhase

/-- Interleaving semantics of the Go methods on one CredCache instance.
`acquire` is `c.lock.Lock()` completing (only when the mutex is free);
`finish` is the backend call returning normally followed by
`c.lock.Unlock()`; `panicStep` is the backend call panicking, after which
the method unwinds without ever executing `c.lock.Unlock()`, so the
owner field is left untouched.  `panics t` says whether the backend body
run by goroutine `t` hits the fault. -/
inductive CredLockStep {n : Nat} (panics : Fin n → Bool) :
    CredLockState n → CredLockState n → Prop where
  | acquire (s : CredLockState n) (t : Fin n) :
      s.phase t = ThreadPhase.beforeLock → s.owner = none →
      CredLockStep panics s
        ⟨some t, Function.update s.phase t ThreadPhase.inBackend⟩
  | finish (s : CredLockState n) (t : Fin n) :
      s.phase t = ThreadPhase.inBackend → panics t = false →
      CredLockStep panics s
        ⟨none, Function.update s.phase t ThreadPhase.returned⟩
  | panicStep (s : CredLockState n) (t : Fin n) :
      s.phase t = ThreadPhase.inBackend → panics t = true →
      CredLockStep panics s
        ⟨s.owner, Function.update s.phase t ThreadPhase.panicked⟩

/-- Initial state: the mutex is free and every goroutine is about to call
a public CredCache operation. -/
def credInit (n : Nat) : CredLockState n :=
  ⟨none, fun _ => ThreadPhase.beforeLock⟩

/-- States of the CredCache lock reachable from the initial state. -/
def CredReachable {n : Nat} (panics : Fin n → Bool) (s : CredLockState n) : Prop :=
  Relation.ReflTransGen (CredLockStep panics) (credInit n) s

/-- Witness data: a stat record of a directory (drwxr-xr-x). -/
def stDir : Stat_t :=
  { Mode := 0x41ED, Atim := ⟨0, 0⟩, Mtim := ⟨0, 0⟩, Size := 4096, Nlink := 2, Ino := 7 }

/-- Witness data: a stat record of a regular file (rw-r--r--) of size
`2 ^ 32 + 5` bytes. -/
def stReg : Stat_t :=
  { Mode := 0x81A4, Atim := ⟨0, 0⟩, Mtim := ⟨0, 0⟩, Size := 2 ^ 32 + 5, Nlink := 1, Ino := 8 }

/-- The record returned by a successful `GetFileInformation` query. -/
def infoOf (st : Stat_t) : ByHandleFileInformation :=
  match GetFileInformation "w" false (Except.ok st) with
  | Except.ok info => info
  | Except.error _ => default

/-- Witness environment: every collaborator succeeds. -/
def envZero : FsEnv String :=
  { createParentDir := fun _ _ => none
    openFile := fun _ _ => Except.ok ⟨3⟩
    truncate := fun _ _ => none
    close := fun _ => none }

/-- Witness environment: the truncate call fails. -/
def envTruncFail : FsEnv String :=
  { createParentDir := fun _ _ => none
    openFile := fun _ _ => Except.ok ⟨3⟩
    truncate := fun _ _ => some "truncate failed"
    close := fun _ => none }

/-- Witness environment: the directory-creation collaborator fails. -/
def envDirFail : FsEnv String :=
  { createParentDir := fun _ _ => some "mkdir denied"
    openFile := fun _ _ => Except.ok ⟨3⟩
    truncate := fun _ _ => none
    close := fun _ => none }

/-- Witness data: the backend body of every goroutine panics if run. -/
def witPanics : Fin 2 → Bool := fun _ => true

/-- Witness state: goroutine 0 has acquired the lock. -/
def witS1 : CredLockState 2 :=
  ⟨some 0, Function.update (credInit 2).phase 0 ThreadPhase.inBackend⟩

/-- Witness state: goroutine 0 then panicked inside the backend call. -/
def witS2 : CredLockState 2 :=
  ⟨witS1.owner, Function.update witS1.phase 0 ThreadPhase.panicked⟩

/-- Helper: `toInt64` is the identity on the signed 64-bit range. -/
theorem toInt64_eq_self {a : Int} (h1 : -(2 ^ 63) ≤ a) (h2 : a < 2 ^ 63) : toInt64 a = a := by
  unfold toInt64
  omega

/-- Helper: the chain of wrapping int64 operations in
`Filetime.Nanoseconds` collapses to a single wrap of the exact value. -/
theorem filetime_nanoseconds_formula (ft : Filetime) :
    ft.Nanoseconds =
      toInt64 (((ft.HighDateTime : Int) * 2 ^ 32 + (ft.LowDateTime : Int) -
        TICKS_FROM_WINDOWS_EPOCH_TO_UNIX_EPOCH) * 100) := by
  unfold Filetime.Nanoseconds toInt64 TICKS_FROM_WINDOWS_EPOCH_TO_UNIX_EPOCH
  omega

/-- Claim C2: `NsecToFiletime 0` yields the Filetime whose reconstructed
64-bit tick value `(HighDateTime <<< 32) ||| LowDateTime` is exactly
116444736000000000, the Windows-epoch representation of
1970-01-01T00:00:00Z. -/
theorem nsecToFiletime_zero_is_windows_epoch :
    (NsecToFiletime 0).HighDateTime <<< 32 ||| (NsecToFiletime 0).LowDateTime =
        116444736000000000 ∧
    (NsecToFiletime 0).HighDateTime = 27111902 ∧
    (NsecToFiletime 0).LowDateTime = 3577643008 := by
  refine ⟨by decide, by decide, by decide⟩

/-- Claim C10: the result of `GetFileInformation` does not depend on the
`isNFSCopy` argument: for every path and every stat outcome the two
calls return identical results. -/
theorem getFileInformation_ignores_isNFSCopy (path : String)
    (statResult : Except String Stat_t) (a b : Bool) :
    GetFileInformation path a statResult = GetFileInformation path b statResult := rfl

/-- Claim C8: on the stub backend, after every preceding sequence of
public operations on a CredCache created by `NewCredCache`,
`HasCachedToken` returns `(false, nil)`, `LoadToken` returns
`(nil, nil)`, and `RemoveCachedToken` and `SaveToken` return `nil`; in
particular `LoadToken` returns `(nil, nil)` immediately after a
successful `SaveToken`. -/
theorem credCache_stub_behaviour (options : CredCacheOptions) (ops : List CredOp)
    (tok : OAuthTokenInfo) :
    ((NewCredCache options).afterOps ops).HasCachedToken = (false, none) ∧
    ((NewCredCache options).afterOps ops).LoadToken = (none, none) ∧
    ((NewCredCache options).afterOps ops).RemoveCachedToken = none ∧
    ((NewCredCache options).afterOps ops).SaveToken tok = none ∧
    (((NewCredCache options).afterOps ops).SaveToken tok = none ∧
      ((NewCredCache options).afterOps (ops ++ [CredOp.saveOp tok])).LoadToken = (none, none)) := by
  exact ⟨rfl, rfl, rfl, rfl, rfl, rfl⟩

/-- Claim C7: whenever the directory-creation collaborator fails, that
exact error value is returned unchanged, with an empty collaborator
trace: no file was opened and no handle is returned. -/
theorem createFile_dir_error_propagated {E : Type} (env : FsEnv E) (path : String)
    (fileSize : Int) (writeThrough : Bool) (tr : FolderCreationTracker)
    (force : Bool) (e : E)
    (hdir : env.createParentDir path tr = some e) :
    CreateFileOfSizeWithWriteThroughOption env path fileSize writeThrough tr force =
      ([], Except.error e) := by
  unfold CreateFileOfSizeWithWriteThroughOption
  rw [hdir]

/-- Witness for claim C7, at the concrete failing environment
`envDirFail`. -/
theorem createFile_dir_error_propagated_witness :
    CreateFileOfSizeWithWriteThroughOption envDirFail "d" 4096 true
        FolderCreationTracker.mk false = ([], Except.error "mkdir denied") :=
  createFile_dir_error_propagated envDirFail "d" 4096 true
    FolderCreationTracker.mk false "mkdir denied" rfl

/-- Claim C6: when the open succeeds, a zero `fileSize` returns the open
handle at once with no truncate call in the trace; a non-zero `fileSize`
whose truncate call fails yields a trace that closes the already-opened
handle (the close outcome is never consulted) and returns the truncate
error with no handle. -/
theorem createFile_sizing {E : Type} (env : FsEnv E) (path : String) (fileSize : Int)
    (writeThrough : Bool) (tr : FolderCreationTracker) (force : Bool) (f : OsFile)
    (hdir : env.createParentDir path tr = none)
    (hopen : env.openFile path (openFlagsFor writeThrough) = Except.ok f) :
    (fileSize = 0 →
      CreateFileOfSizeWithWriteThroughOption env path fileSize writeThrough tr force =
        ([FileEvent.parentDirEnsured, FileEvent.opened f (openFlagsFor writeThrough)],
          Except.ok f)) ∧
    (∀ e : E, fileSize ≠ 0 → env.truncate f fileSize = some e →
      CreateFileOfSizeWithWriteThroughOption env path fileSize writeThrough tr force =
        ([FileEvent.parentDirEnsured, FileEvent.opened f (openFlagsFor writeThrough),
            FileEvent.truncateCalled f fileSize, FileEvent.closeCalled f],
          Except.error e)) := by
  unfold CreateFileOfSizeWithWriteThroughOption
  rw [hdir, hopen]
  dsimp only
  constructor
  · intro h0
    rw [if_pos h0]
  · intro e hne htr
    rw [if_neg hne, htr]

/-- Witness for claim C6: the zero-size case on `envZero` and the failing
truncate case on `envTruncFail`. -/
theorem createFile_sizing_witness :
    CreateFileOfSizeWithWriteThroughOption envZero "d" 0 true
        FolderCreationTracker.mk false =
      ([FileEvent.parentDirEnsured, FileEvent.opened ⟨3⟩ (openFlagsFor true)],
        Except.ok ⟨3⟩) ∧
    CreateFileOfSizeWithWriteThroughOption envTruncFail "d" 4096 false
        FolderCreationTracker.mk false =
      ([FileEvent.parentDirEnsured, FileEvent.opened ⟨3⟩ (openFlagsFor false),
          FileEvent.truncateCalled ⟨3⟩ 4096, FileEvent.closeCalled ⟨3⟩],
        Except.error "truncate failed") := by
  constructor
  · exact (createFile_sizing envZero "d" 0 true FolderCreationTracker.mk false
      ⟨3⟩ rfl rfl).1 rfl
  · exact (createFile_sizing envTruncFail "d" 4096 false FolderCreationTracker.mk false
      ⟨3⟩ rfl rfl).2 "truncate failed" (by decide) rfl

/-- Claim C4: every successful `GetFileInformation` query sets the
directory bit 0x10 and clears the normal bit 0x80 when the stat mode
indicates a directory, sets 0x80 and clears 0x10 otherwise, and never
sets both bits. -/
theorem getFileInformation_attr_bits (path : String) (isNFSCopy : Bool) (st : Stat_t)
    (info : ByHandleFileInformation)
    (h : GetFileInformation path isNFSCopy (Except.ok st) = Except.ok info) :
    (st.Mode &&& S_IFMT = S_IFDIR →
      info.FileAttributes &&& 0x10 = 0x10 ∧ info.FileAttributes &&& 0x80 = 0) ∧
    (¬ st.Mode &&& S_IFMT = S_IFDIR →
      info.FileAttributes &&& 0x80 = 0x80 ∧ info.FileAttributes &&& 0x10 = 0) ∧
    ¬ (info.FileAttributes &&& 0x10 ≠ 0 ∧ info.FileAttributes &&& 0x80 ≠ 0) := by
  have hattr : info.FileAttributes =
      if st.Mode &&& S_IFMT = S_IFDIR then 0x10 else 0x80 := by
    unfold GetFileInformation at h
    rw [Except.ok.injEq] at h
    rw [← h]
  by_cases hd : st.Mode &&& S_IFMT = S_IFDIR
  · rw [hattr, if_pos hd]
    exact ⟨fun _ => ⟨by decide, by decide⟩, fun hc => absurd hd hc, by decide⟩
  · rw [hattr, if_neg hd]
    exact ⟨fun hc => absurd hc hd, fun _ => ⟨by decide, by decide⟩, by decide⟩

/-- Witness for claim C4, on a concrete directory stat and a concrete
regular-file stat. -/
theorem getFileInformation_attr_bits_witness :
    (infoOf stDir).FileAttributes &&& 0x10 = 0x10 ∧
    (infoOf stReg).FileAttributes &&& 0x80 = 0x80 := by
  have h1 := getFileInformation_attr_bits "w" false stDir (infoOf stDir) rfl
  have h2 := getFileInformation_attr_bits "w" false stReg (infoOf stReg) rfl
  exact ⟨(h1.1 (by decide)).1, (h2.2.1 (by decide)).1⟩

/-- Claim C5: every successful `GetFileInformation` query returns
`FileSizeHigh` and `FileSizeLow` equal to the high and low 32-bit halves
of the unsigned 64-bit byte size. -/
theorem getFileInformation_size_split (path : String) (isNFSCopy : Bool) (st : Stat_t)
    (info : ByHandleFileInformation)
    (h : GetFileInformation path isNFSCopy (Except.ok st) = Except.ok info) :
    info.FileSizeHigh = toUInt64 st.Size / 2 ^ 32 ∧
    info.FileSizeLow = toUInt64 st.Size % 2 ^ 32 ∧
    info.FileSizeHigh * 2 ^ 32 + info.FileSizeLow = toUInt64 st.Size ∧
    info.FileSizeLow < 2 ^ 32 ∧ info.FileSizeHigh < 2 ^ 32 := by
  unfold GetFileInformation at h
  rw [Except.ok.injEq] at h
  subst h
  refine ⟨rfl, rfl, ?_, ?_, ?_⟩
  · show toUInt64 st.Size / 2 ^ 32 * 2 ^ 32 + toUInt64 st.Size % 2 ^ 32 = toUInt64 st.Size
    omega
  · show toUInt64 st.Size % 2 ^ 32 < 2 ^ 32
    omega
  · show toUInt64 st.Size / 2 ^ 32 < 2 ^ 32
    unfold toUInt64
    omega

/-- Witness for claim C5: a file of `2 ^ 32 + 5` bytes yields
`FileSizeHigh = 1` and `FileSizeLow = 5`. -/
theorem getFileInformation_size_split_witness :
    (infoOf stReg).FileSizeHigh = 1 ∧ (infoOf stReg).FileSizeLow = 5 := by
  have h := getFileInformation_size_split "w" false stReg (infoOf stReg) rfl
  exact ⟨h.1.trans (by decide), h.2.1.trans (by decide)⟩

/-- Counterexample to claim C1 as stated: at `n = -50` (not a multiple of
100) the round trip yields 0, which is greater than `n` and therefore is
not the nearest lower multiple of 100 of `n` (that would be -100).  Go
division truncates toward zero, not toward the lower boundary. -/
theorem roundTrip_lower_boundary_counterexample :
    ¬ (100 : Int) ∣ (-50 : Int) ∧
    (NsecToFiletime (-50)).Nanoseconds = 0 ∧
    ¬ (NsecToFiletime (-50)).Nanoseconds ≤ (-50 : Int) ∧
    (NsecToFiletime (-50)).Nanoseconds ≠ (-100 : Int) := by
  refine ⟨by decide, by decide, by decide, by decide⟩

/-- Claim C1 (amended): for every int64 nanosecond timestamp `n`, the
round trip `(NsecToFiletime n).Nanoseconds` equals
`100 * Int.tdiv n 100`, i.e. `n` truncated toward zero to a multiple of
100: exact when `n` is a multiple of 100, the nearest lower multiple for
positive `n`, the nearest higher multiple for negative `n`. -/
theorem nsecToFiletime_roundTrip (n : Int)
    (h1 : -(2 ^ 63) ≤ n) (h2 : n < 2 ^ 63) :
    (NsecToFiletime n).Nanoseconds = 100 * Int.tdiv n 100 ∧
    ((100 : Int) ∣ n → (NsecToFiletime n).Nanoseconds = n) := by
  have hqe : (0 ≤ n ∧ Int.tdiv n 100 = n / 100) ∨
      (n < 0 ∧ Int.tdiv n 100 = -(-n / 100)) := by
    rcases le_or_lt 0 n with hn | hn
    · exact Or.inl ⟨hn, Int.tdiv_eq_ediv hn (by norm_num)⟩
    · have h := Int.neg_tdiv (-n) 100
      rw [neg_neg] at h
      exact Or.inr ⟨hn, by rw [h, Int.tdiv_eq_ediv (by omega) (by norm_num)]⟩
  have hqb : -(92233720368547758 : Int) ≤ Int.tdiv n 100 ∧
      Int.tdiv n 100 ≤ 92233720368547758 := by
    rcases hqe with ⟨hn, hq⟩ | ⟨hn, hq⟩ <;> rw [hq] <;> constructor <;> omega
  have hdvd : (100 : Int) ∣ n → 100 * Int.tdiv n 100 = n := by
    intro hd
    rcases hqe with ⟨hn, hq⟩ | ⟨hn, hq⟩ <;> rw [hq] <;> omega
  have hex : ∃ k : Int, Int.tdiv n 100 = k := ⟨Int.tdiv n 100, rfl⟩
  obtain ⟨k, hk⟩ := hex
  rw [hk] at hqb hdvd ⊢
  have hkey : (NsecToFiletime n).Nanoseconds = 100 * k := by
    rw [filetime_nanoseconds_formula (NsecToFiletime n)]
    unfold NsecToFiletime
    dsimp only
    rw [hk, Int.fdiv_eq_ediv _ (by norm_num)]
    have hm : toInt64 (k + TICKS_FROM_WINDOWS_EPOCH_TO_UNIX_EPOCH) =
        k + TICKS_FROM_WINDOWS_EPOCH_TO_UNIX_EPOCH := by
      apply toInt64_eq_self <;>
        unfold TICKS_FROM_WINDOWS_EPOCH_TO_UNIX_EPOCH <;> omega
    rw [hm]
    have hrec :
        (((k + TICKS_FROM_WINDOWS_EPOCH_TO_UNIX_EPOCH) / 2 ^ 32 % 2 ^ 32).toNat : Int) *
            2 ^ 32 +
          (((k + TICKS_FROM_WINDOWS_EPOCH_TO_UNIX_EPOCH) % 2 ^ 32).toNat : Int) =
          k + TICKS_FROM_WINDOWS_EPOCH_TO_UNIX_EPOCH := by
      unfold TICKS_FROM_WINDOWS_EPOCH_TO_UNIX_EPOCH
      omega
    rw [hrec]
    have hcancel : k + TICKS_FROM_WINDOWS_EPOCH_TO_UNIX_EPOCH -
        TICKS_FROM_WINDOWS_EPOCH_TO_UNIX_EPOCH = k := by ring
    rw [hcancel, toInt64_eq_self (by omega) (by omega)]
    ring
  exact ⟨hkey, fun hd => by rw [hkey, hdvd hd]⟩

/-- Witness for claim C1 (amended): concrete round trips at 250 (not a
multiple of 100) and 25000 (a multiple of 100). -/
theorem nsecToFiletime_roundTrip_witness :
    (NsecToFiletime 250).Nanoseconds = 100 * Int.tdiv 250 100 ∧
    (NsecToFiletime 25000).Nanoseconds = 25000 := by
  constructor
  · exact (nsecToFiletime_roundTrip 250 (by decide) (by decide)).1
  · exact (nsecToFiletime_roundTrip 25000 (by decide) (by decide)).2 (by decide)

/-- Counterexample to claim C3 as stated: the Filetime with tick value 0
(before 1970) has exact nanosecond count `-11644473600000000000`, which
is below the int64 minimum, so the multiplication by 100 wraps and
`Nanoseconds` returns the positive value 6802270473709551616 instead of
the exact negative count. -/
theorem filetime_nanoseconds_pre1970_counterexample :
    ((0 : Int) * 2 ^ 32 + (0 : Int) < TICKS_FROM_WINDOWS_EPOCH_TO_UNIX_EPOCH) ∧
    Filetime.Nanoseconds ⟨0, 0⟩ = 6802270473709551616 ∧
    ((0 : Int) * 2 ^ 32 + (0 : Int) - TICKS_FROM_WINDOWS_EPOCH_TO_UNIX_EPOCH) * 100 =
      -11644473600000000000 ∧
    (6802270473709551616 : Int) ≠ -11644473600000000000 := by
  refine ⟨by decide, by decide, by decide, by decide⟩

/-- Claim C3 (amended): for every Filetime, `Nanoseconds` equals
`((HighDateTime <<< 32) + LowDateTime - 116444736000000000) * 100`
computed in wrapping 64-bit signed arithmetic; whenever the exact value
`(signedTicks - offset) * 100` lies in the int64 range — in particular
for tick values less than the epoch offset by at most
92233720368547758 ticks — the result is that exact (negative)
nanosecond count. -/
theorem filetime_nanoseconds_formula_int64 (ft : Filetime) :
    ft.Nanoseconds =
      toInt64 (((ft.HighDateTime : Int) * 2 ^ 32 + (ft.LowDateTime : Int) -
        TICKS_FROM_WINDOWS_EPOCH_TO_UNIX_EPOCH) * 100) ∧
    (-(2 ^ 63) ≤ (toInt64 ((ft.HighDateTime : Int) * 2 ^ 32 + (ft.LowDateTime : Int)) -
        TICKS_FROM_WINDOWS_EPOCH_TO_UNIX_EPOCH) * 100 →
      (toInt64 ((ft.HighDateTime : Int) * 2 ^ 32 + (ft.LowDateTime : Int)) -
        TICKS_FROM_WINDOWS_EPOCH_TO_UNIX_EPOCH) * 100 < 2 ^ 63 →
      ft.Nanoseconds =
        (toInt64 ((ft.HighDateTime : Int) * 2 ^ 32 + (ft.LowDateTime : Int)) -
          TICKS_FROM_WINDOWS_EPOCH_TO_UNIX_EPOCH) * 100) := by
  refine ⟨filetime_nanoseconds_formula ft, ?_⟩
  intro hlb hub
  rw [filetime_nanoseconds_formula ft]
  unfold toInt64 TICKS_FROM_WINDOWS_EPOCH_TO_UNIX_EPOCH at hlb hub ⊢
  omega

/-- Witness for claim C3 (amended): the Filetime one tick before the Unix
epoch, whose exact count -100 is within int64 range, converts exactly. -/
theorem filetime_nanoseconds_formula_int64_witness :
    Filetime.Nanoseconds ⟨3577643007, 27111902⟩ = -100 := by
  have h := (filetime_nanoseconds_formula_int64 ⟨3577643007, 27111902⟩).2
  rw [toInt64_eq_self (by norm_num) (by norm_num)] at h
  unfold TICKS_FROM_WINDOWS_EPOCH_TO_UNIX_EPOCH at h
  norm_num at h
  exact h

/-- Helper: in every reachable state of the CredCache lock model, a
goroutine that is inside the backend call or stopped by a panic is the
owner recorded in the mutex. -/
theorem credLock_invariant {n : Nat} (panics : Fin n → Bool) (s : CredLockState n)
    (h : CredReachable panics s) :
    ∀ t : Fin n,
      s.phase t = ThreadPhase.inBackend ∨ s.phase t = ThreadPhase.panicked →
      s.owner = some t := by
  induction h with
  | refl =>
      intro t ht
      simp only [credInit] at ht
      rcases ht with ht | ht <;> cases ht
  | tail hr hstep ih =>
      cases hstep with
      | acquire t hpt how =>
          intro u hu
          dsimp only at hu ⊢
          rcases eq_or_ne u t with rfl | hne
          · rfl
          · rw [Function.update_noteq hne] at hu
            rw [ih u hu] at how
            cases how
      | finish t hpt hnp =>
          intro u hu
          dsimp only at hu ⊢
          rcases eq_or_ne u t with rfl | hne
          · rw [Function.update_same] at hu
            rcases hu with hu | hu <;> cases hu
          · rw [Function.update_noteq hne] at hu
            have h1 := ih u hu
            have h2 := ih t (Or.inl hpt)
            rw [h2] at h1
            exact absurd (Option.some_injective _ h1) (Ne.symm hne)
      | panicStep t hpt hpp =>
          intro u hu
          dsimp only at hu ⊢
          rcases eq_or_ne u t with rfl | hne
          · exact ih u (Or.inl hpt)
          · rw [Function.update_noteq hne] at hu
            exact ih u hu

/-- Claim C9: in the lock model of the public CredCache operations
(Lock, backend call, Unlock only on the normal return path, no deferred
release), every reachable state satisfies: at most one goroutine is
executing a backend body; after a panic inside a backend call the lock
is still recorded as owned by the panicked goroutine (it was never
released); and from such a state no step at all is possible — in
particular no other caller can ever complete its Lock acquisition, so
all subsequent callers block forever. -/
theorem credCache_lock_fail_stop {n : Nat} (panics : Fin n → Bool)
    (s : CredLockState n) (h : CredReachable panics s) :
    (∀ t u : Fin n, s.phase t = ThreadPhase.inBackend →
      s.phase u = ThreadPhase.inBackend → t = u) ∧
    (∀ t : Fin n, s.phase t = ThreadPhase.panicked → s.owner = some t) ∧
    ((∃ t : Fin n, s.phase t = ThreadPhase.panicked) →
      ∀ sNext : CredLockState n, ¬ CredLockStep panics s sNext) := by
  have inv := credLock_invariant panics s h
  refine ⟨?_, ?_, ?_⟩
  · intro t u ht hu
    have h1 := inv t (Or.inl ht)
    have h2 := inv u (Or.inl hu)
    rw [h1] at h2
    exact Option.some_injective _ h2
  · intro t ht
    exact inv t (Or.inr ht)
  · rintro ⟨t0, ht0⟩ sNext hstep
    have hown := inv t0 (Or.inr ht0)
    cases hstep with
    | acquire t hpt how =>
        rw [hown] at how
        cases how
    | finish t hpt hnp =>
        have h1 := inv t (Or.inl hpt)
        rw [hown] at h1
        obtain rfl := Option.some_injective _ h1
        rw [ht0] at hpt
        cases hpt
    | panicStep t hpt hpp =>
        have h1 := inv t (Or.inl hpt)
        rw [hown] at h1
        obtain rfl := Option.some_injective _ h1
        rw [ht0] at hpt
        cases hpt

/-- Helper: the state in which goroutine 0 has acquired the lock and then
panicked inside the backend call is reachable. -/
theorem witS2_reachable : CredReachable witPanics witS2 :=
  Relation.ReflTransGen.tail
    (Relation.ReflTransGen.single
      (CredLockStep.acquire (credInit 2) 0 rfl rfl))
    (CredLockStep.panicStep witS1 0 rfl rfl)

/-- Witness for claim C9: in the concrete two-goroutine run where
goroutine 0 acquires the lock and panics, the lock is still owned by
goroutine 0 and no further step (in particular no acquisition by
goroutine 1) is possible. -/
theorem credCache_lock_fail_stop_witness :
    witS2.owner = some 0 ∧
    ∀ sNext : CredLockState 2, ¬ CredLockStep witPanics witS2 sNext := by
  have h := credCache_lock_fail_stop witPanics witS2 witS2_reachable
  exact ⟨h.2.1 0 rfl, h.2.2 ⟨0, rfl⟩⟩

end AzCopy
